import Mathlib

set_option autoImplicit false

/-!
Verification development for the RISC-V Debug Transport Module driver
(src/target/riscv.c) of the Black Magic Debug project, following the
risc-v debug draft 0.11.  The JTAG side is modelled as an explicit event
trace; the device side is an oracle given as the list of DR shift response
words, consumed one per shift in program order.
-/

/-- Events emitted towards the JTAG TAP: an IR selection, a DR shift of a
given width carrying the outbound payload, and a run of TMS=0 cycles in
run-test-idle. -/
inductive JtagEvent where
  | writeIR (ir : Nat)
  | shiftDR (width : Nat) (payload : Nat)
  | tmsSeq (cycles : Nat)
  deriving DecidableEq, Repr

/-- IR address of dtmcontrol, from the source header block. -/
def RISCV_IR_DTMCONTROL : Nat := 0x10

/-- IR address of the dbus register. -/
def RISCV_IR_DBUS : Nat := 0x11

/-- Write-one dbusreset bit of dtmcontrol. -/
def RISCV_DTMCONTROL_DBUSRESET : Nat := 1 <<< 16

/-- dbus opcode: no operation. -/
def RISCV_DBUS_NOP : Nat := 0

/-- dbus opcode: read. -/
def RISCV_DBUS_READ : Nat := 1

/-- dbus opcode: write. -/
def RISCV_DBUS_WRITE : Nat := 2

/-- INTERRUPT bit of the 34-bit dbus data field. -/
def RISCV_DMCONTROL_INTERRUPT : Nat := 1 <<< 33

/-- HALTNOT bit of the dmcontrol word. -/
def RISCV_DMCONTROL_HALTNOT : Nat := 1 <<< 32

/-- CSR number of tselect. -/
def RISCV_TSELECT : Nat := 0x7a0

/-- CSR number of mcontrol, the tdata1 view of a trigger. -/
def RISCV_MCONTROL : Nat := 0x7a1

/-- CSR number of tdata2. -/
def RISCV_TDATA2 : Nat := 0x7a2

/-- CSR number of dcsr. -/
def RISCV_DCSR : Nat := 0x7b0

/-- CSR number of dpc. -/
def RISCV_DPC : Nat := 0x7b1

/-- CSR number of dscratch. -/
def RISCV_DSCRATCH : Nat := 0x7b2

/-- mcontrol dmode bit, 1 << (32-5) in the source. -/
def RISCV_MCONTROL_DMODE : Nat := 1 <<< (32 - 5)

/-- mcontrol enable mask, bits 6..3. -/
def RISCV_MCONTROL_ENABLE_MASK : Nat := 0xf <<< 3

/-- mcontrol load match bit. -/
def RISCV_MCONTROL_LOAD : Nat := 1 <<< 0

/-- mcontrol store match bit. -/
def RISCV_MCONTROL_STORE : Nat := 1 <<< 1

/-- mcontrol execute match bit. -/
def RISCV_MCONTROL_EXECUTE : Nat := 1 <<< 2

/-- mcontrol debug action bit. -/
def RISCV_MCONTROL_ACTION_DEBUG : Nat := 1 <<< 12

/-- DTM state per scanned hart, mirroring struct riscv_dtm of the source
(the jtag device handle is implicit in the event trace). -/
structure riscv_dtm where
  abits : Nat
  idle : Nat
  dramsize : Nat
  error : Bool
  lastdbus : Nat
  halt_requested : Bool
  deriving DecidableEq, Repr

/-- Result of a dbus-level operation: the returned 34-bit data value, the
updated DTM state, the emitted JTAG events, and the remaining response
script.  A none result means the response script ran out. -/
abbrev DtmResult := Nat × riscv_dtm × List JtagEvent × List Nat

/-- Retry loop of riscv_dtm_low_access: each iteration shifts the dbus DR
and inspects the status in the low two bits of the response; status 3
performs the dbusreset recovery, reshifts lastdbus, emits the idle cycles
and re-issues; status 0 commits lastdbus and returns the data field after
the idle cycles; any other status latches the sticky error flag and
returns 0 with no idle cycles. -/
def low_access_go (dtm : riscv_dtm) (dbus : Nat) : List Nat → Option DtmResult
  | [] => none
  | ret :: rest =>
    if ret % 4 = 3 then
      match rest with
      | [] => none
      | [_] => none
      | _r1 :: _r2 :: rest2 =>
        match low_access_go dtm dbus rest2 with
        | none => none
        | some (v, dtm2, evs, rem) =>
          some (v, dtm2,
            JtagEvent.shiftDR (36 + dtm.abits) dbus ::
            JtagEvent.writeIR RISCV_IR_DTMCONTROL ::
            JtagEvent.shiftDR 32 RISCV_DTMCONTROL_DBUSRESET ::
            JtagEvent.writeIR RISCV_IR_DBUS ::
            JtagEvent.shiftDR (dtm.abits + 36) dtm.lastdbus ::
            JtagEvent.tmsSeq dtm.idle :: evs, rem)
    else if ret % 4 = 0 then
      some ((ret >>> 2) &&& 0x3ffffffff, { dtm with lastdbus := dbus },
        [JtagEvent.shiftDR (36 + dtm.abits) dbus, JtagEvent.tmsSeq dtm.idle],
        rest)
    else
      some (0, { dtm with error := true },
        [JtagEvent.shiftDR (36 + dtm.abits) dbus], rest)

/-- riscv_dtm_low_access: while the sticky error flag is set, return 0 at
once with no JTAG interaction; otherwise run the shift and retry loop. -/
def riscv_dtm_low_access (dtm : riscv_dtm) (dbus : Nat) (resps : List Nat) :
    Option DtmResult :=
  if dtm.error then some (0, dtm, [], resps)
  else low_access_go dtm dbus resps

/-- riscv_dtm_write: one low access with the write payload
addr shifted to bit 36, the 34-bit masked data at bit 2, opcode WRITE. -/
def riscv_dtm_write (dtm : riscv_dtm) (addr data : Nat) (resps : List Nat) :
    Option DtmResult :=
  riscv_dtm_low_access dtm
    ((addr <<< 36) ||| ((data &&& 0x3ffffffff) <<< 2) ||| RISCV_DBUS_WRITE)
    resps

/-- riscv_dtm_read: an arming low access with opcode READ, then a NOP low
access whose data field is the result. -/
def riscv_dtm_read (dtm : riscv_dtm) (addr : Nat) (resps : List Nat) :
    Option DtmResult :=
  match riscv_dtm_low_access dtm ((addr <<< 36) ||| RISCV_DBUS_READ) resps with
  | none => none
  | some (_, dtm1, evs1, rem1) =>
    match riscv_dtm_low_access dtm1 RISCV_DBUS_NOP rem1 with
    | none => none
    | some (v, dtm2, evs2, rem2) => some (v, dtm2, evs1 ++ evs2, rem2)

/-- riscv_check_error: on a sticky error, issue the DBUS reset (an IR
selection of dtmcontrol plus a 32-bit DR shift of the dbusreset word,
consuming one response), clear the flag and report true; otherwise report
false with no interaction. -/
def riscv_check_error (dtm : riscv_dtm) (resps : List Nat) :
    Option (Bool × riscv_dtm × List JtagEvent × List Nat) :=
  if dtm.error then
    match resps with
    | [] => none
    | _ :: rest =>
      some (true, { dtm with error := false },
        [JtagEvent.writeIR RISCV_IR_DTMCONTROL,
         JtagEvent.shiftDR 32 RISCV_DTMCONTROL_DBUSRESET], rest)
  else some (false, dtm, [], resps)

/-- Staging loop of riscv_debug_ram_exec: writes code words i, i+1, ... for
n iterations, threading the DTM state and the response script. -/
def exec_write_loop (code : List Nat) :
    riscv_dtm → Nat → Nat → List Nat →
    Option (riscv_dtm × List JtagEvent × List Nat)
  | dtm, _, 0, resps => some (dtm, [], resps)
  | dtm, i, n + 1, resps =>
    match riscv_dtm_write dtm i (code.getD i 0) resps with
    | none => none
    | some (_, dtm1, evs, rem) =>
      match exec_write_loop code dtm1 (i + 1) n rem with
      | none => none
      | some (dtm2, evs2, rem2) => some (dtm2, evs ++ evs2, rem2)

/-- Completion poll of riscv_debug_ram_exec: read Debug RAM word count and
repeat while the INTERRUPT bit of the returned data is set; the result is
the low 32 bits of the last read.  The do-while loop carries explicit
fuel. -/
def exec_poll (count : Nat) : riscv_dtm → Nat → List Nat → Option DtmResult
  | _, 0, _ => none
  | dtm, fuel + 1, resps =>
    match riscv_dtm_read dtm count resps with
    | none => none
    | some (ret, dtm1, evs, rem) =>
      if ret &&& RISCV_DMCONTROL_INTERRUPT = 0 then
        some (ret % 2 ^ 32, dtm1, evs, rem)
      else
        match exec_poll count dtm1 fuel rem with
        | none => none
        | some (v, dtm2, evs2, rem2) => some (v, dtm2, evs ++ evs2, rem2)

/-- riscv_debug_ram_exec: stage words 0..count-2 from code, write word
count-1 as the final code word with the INTERRUPT bit OR-ed in, then poll
Debug RAM word count until INTERRUPT clears, returning the low 32 bits of
the last poll.  count is the C count argument, kept separate from the
length of code because the source passes them independently. -/
def riscv_debug_ram_exec (dtm : riscv_dtm) (code : List Nat) (count : Nat)
    (resps : List Nat) (fuel : Nat) : Option DtmResult :=
  match exec_write_loop code dtm 0 (count - 1) resps with
  | none => none
  | some (dtm1, evs1, rem1) =>
    match riscv_dtm_write dtm1 (count - 1)
        (code.getD (count - 1) 0 ||| RISCV_DMCONTROL_INTERRUPT) rem1 with
    | none => none
    | some (_, dtm2, evs2, rem2) =>
      match exec_poll count dtm2 fuel rem2 with
      | none => none
      | some (v, dtm3, evs3, rem3) =>
        some (v, dtm3, evs1 ++ evs2 ++ evs3, rem3)

/-- riscv_mem_read32: the five-element memory read stub, executed with
count 5 as in the source. -/
def riscv_mem_read32 (dtm : riscv_dtm) (addr : Nat) (resps : List Nat)
    (fuel : Nat) : Option DtmResult :=
  riscv_debug_ram_exec dtm
    [0x41002403, 0x42483, 0x40902a23, 0x3f80006f, addr] 5 resps fuel

/-- riscv_mem_write32: the six-element array of the source, executed with
count 5 exactly as the source passes it. -/
def riscv_mem_write32 (dtm : riscv_dtm) (addr val : Nat) (resps : List Nat)
    (fuel : Nat) : Option DtmResult :=
  riscv_debug_ram_exec dtm
    [0x41002403, 0x41402483, 0x942023, 0x3f80006f, addr, val] 5 resps fuel

/-- Halt reasons of the generic target layer used by riscv_halt_poll. -/
inductive target_halt_reason where
  | running
  | error
  | request
  | stepping
  | breakpoint
  | watchpoint
  | fault
  deriving DecidableEq, Repr

/-- riscv_halt_poll, with the two fetched words passed as parameters: the
dmcontrol value obtained through riscv_dtm_read and the dcsr value obtained
through riscv_csreg_read; the decode logic is the source switch. -/
def riscv_halt_poll (halt_requested : Bool) (dmcontrol dcsr : Nat) :
    target_halt_reason :=
  if halt_requested = false ∧ dmcontrol &&& RISCV_DMCONTROL_HALTNOT = 0 then
    target_halt_reason.running
  else
    match (dcsr >>> 6) &&& 7 with
    | 0 => target_halt_reason.running
    | 1 => target_halt_reason.breakpoint
    | 2 => target_halt_reason.breakpoint
    | 3 => target_halt_reason.request
    | 4 => target_halt_reason.stepping
    | 5 => target_halt_reason.request
    | _ => target_halt_reason.error

/-- Claim-side restatement of the halt poll contract, written from the
words of the specification: RUNNING when no halt was requested and HALTNOT
is clear, otherwise the cause field of dcsr selects the reason. -/
def halt_poll_spec (halt_requested : Bool) (dmcontrol dcsr : Nat) :
    target_halt_reason :=
  if halt_requested = false ∧ dmcontrol &&& (1 <<< 32) = 0 then
    target_halt_reason.running
  else
    if (dcsr >>> 6) &&& 7 = 0 then target_halt_reason.running
    else if (dcsr >>> 6) &&& 7 = 1 ∨ (dcsr >>> 6) &&& 7 = 2 then
      target_halt_reason.breakpoint
    else if (dcsr >>> 6) &&& 7 = 3 then target_halt_reason.request
    else if (dcsr >>> 6) &&& 7 = 4 then target_halt_reason.stepping
    else if (dcsr >>> 6) &&& 7 = 5 then target_halt_reason.request
    else target_halt_reason.error

/-- Hart accesses performed by the register facade: general purpose
register reads and writes through the gpreg stubs, CSR reads and writes
through the csreg stubs, and direct dbus accesses to a Debug RAM word. -/
inductive hart_op where
  | rd_gpr (r : Nat)
  | rd_csr (c : Nat)
  | rd_dram (w : Nat)
  | wr_gpr (r : Nat) (v : Nat)
  | wr_csr (c : Nat) (v : Nat)
  | wr_dram (w : Nat) (v : Nat)
  deriving DecidableEq, Repr

/-- riscv_reg_read, with the hart access primitives abstracted into an
oracle; the result is the ssize_t return value, the content of the caller
buffer after the call (buf being its previous content), and the list of
hart accesses performed, in order. -/
def riscv_reg_read (dtm : riscv_dtm) (reg : Nat) (buf : Nat)
    (oracle : hart_op → Nat) : Nat × Nat × List hart_op :=
  if reg = 0 then (4, 0, [])
  else if reg = 8 then
    (4, oracle (hart_op.rd_csr RISCV_DSCRATCH), [hart_op.rd_csr RISCV_DSCRATCH])
  else if reg = 9 then
    (4, oracle (hart_op.rd_dram dtm.dramsize), [hart_op.rd_dram dtm.dramsize])
  else if reg = 32 then
    (4, oracle (hart_op.rd_csr RISCV_DPC), [hart_op.rd_csr RISCV_DPC])
  else if 65 ≤ reg ∧ reg ≤ 65 + 4095 then
    (4, oracle (hart_op.rd_csr (reg - 65)), [hart_op.rd_csr (reg - 65)])
  else if (1 ≤ reg ∧ reg ≤ 7) ∨ (10 ≤ reg ∧ reg ≤ 31) then
    (4, oracle (hart_op.rd_gpr reg), [hart_op.rd_gpr reg])
  else (4, buf, [])

/-- Claim-side restatement of the register read mapping, written from the
words of the specification in claim order: 0 is a hard zero, 1..7 and
10..31 use the GPR stub with the index as register number, 8 is the
DSCRATCH CSR, 9 is Debug RAM word dramsize, 32 is the DPC CSR, 65 up to
65+4095 read the CSR numbered index minus 65, and anything else leaves the
buffer untouched. -/
def reg_read_spec (dtm : riscv_dtm) (reg : Nat) (buf : Nat)
    (oracle : hart_op → Nat) : Nat × Nat × List hart_op :=
  if reg = 0 then (4, 0, [])
  else if (1 ≤ reg ∧ reg ≤ 7) ∨ (10 ≤ reg ∧ reg ≤ 31) then
    (4, oracle (hart_op.rd_gpr reg), [hart_op.rd_gpr reg])
  else if reg = 8 then
    (4, oracle (hart_op.rd_csr 0x7b2), [hart_op.rd_csr 0x7b2])
  else if reg = 9 then
    (4, oracle (hart_op.rd_dram dtm.dramsize), [hart_op.rd_dram dtm.dramsize])
  else if reg = 32 then
    (4, oracle (hart_op.rd_csr 0x7b1), [hart_op.rd_csr 0x7b1])
  else if 65 ≤ reg ∧ reg ≤ 65 + 4095 then
    (4, oracle (hart_op.rd_csr (reg - 65)), [hart_op.rd_csr (reg - 65)])
  else (4, buf, [])

/-- riscv_regs_write: the 33-iteration loop of the source, emitting the
hart accesses performed for the register block regs, in order. -/
def riscv_regs_write (dtm : riscv_dtm) (regs : List Nat) : List hart_op :=
  (List.range 33).flatMap fun i =>
    match i with
    | 0 => []
    | 8 => [hart_op.wr_csr RISCV_DSCRATCH (regs.getD i 0)]
    | 9 => [hart_op.wr_dram dtm.dramsize (regs.getD i 0)]
    | 32 => [hart_op.wr_csr RISCV_DPC (regs.getD i 0)]
    | _ => [hart_op.wr_gpr i (regs.getD i 0)]

/-- Claim-side restatement of the register write mapping, written from the
words of the specification: index 0 is ignored, 8 writes DSCRATCH, 9
writes Debug RAM word dramsize, 32 writes DPC, and the remaining indices
of 0..32 write the general purpose register of the same number. -/
def regs_write_spec (dtm : riscv_dtm) (regs : List Nat) : List hart_op :=
  (List.range 33).flatMap fun i =>
    if i = 0 then []
    else if (1 ≤ i ∧ i ≤ 7) ∨ (10 ≤ i ∧ i ≤ 31) then
      [hart_op.wr_gpr i (regs.getD i 0)]
    else if i = 8 then [hart_op.wr_csr 0x7b2 (regs.getD i 0)]
    else if i = 9 then [hart_op.wr_dram dtm.dramsize (regs.getD i 0)]
    else [hart_op.wr_csr 0x7b1 (regs.getD i 0)]

/-- Breakwatch kinds of the generic target layer reaching the source
switch. -/
inductive target_breakwatch where
  | break_soft
  | break_hard
  | watch_write
  | watch_read
  | watch_access
  deriving DecidableEq, Repr

/-- Value prepared for the mcontrol CSR by riscv_breakwatch_set: the
dmode, action and enable bits OR-ed with the match kind bit; none for the
kinds of the default branch, which makes the function return 1. -/
def riscv_breakwatch_mcontrol (ty : target_breakwatch) : Option Nat :=
  match ty with
  | target_breakwatch.break_hard =>
    some (RISCV_MCONTROL_DMODE ||| RISCV_MCONTROL_ACTION_DEBUG |||
      RISCV_MCONTROL_ENABLE_MASK ||| RISCV_MCONTROL_EXECUTE)
  | target_breakwatch.watch_write =>
    some (RISCV_MCONTROL_DMODE ||| RISCV_MCONTROL_ACTION_DEBUG |||
      RISCV_MCONTROL_ENABLE_MASK ||| RISCV_MCONTROL_STORE)
  | target_breakwatch.watch_read =>
    some (RISCV_MCONTROL_DMODE ||| RISCV_MCONTROL_ACTION_DEBUG |||
      RISCV_MCONTROL_ENABLE_MASK ||| RISCV_MCONTROL_LOAD)
  | target_breakwatch.watch_access =>
    some (RISCV_MCONTROL_DMODE ||| RISCV_MCONTROL_ACTION_DEBUG |||
      RISCV_MCONTROL_ENABLE_MASK ||| RISCV_MCONTROL_LOAD |||
      RISCV_MCONTROL_STORE)
  | target_breakwatch.break_soft => none

/-- One trigger slot of the hart, holding its tdata1 and tdata2 values. -/
structure hart_trigger where
  tdata1 : Nat
  tdata2 : Nat
  deriving DecidableEq, Repr

/-- Modelled from the spec: the trigger module of the hart, which is
external to the driver source and is observed only through the tselect,
mcontrol (tdata1) and tdata2 CSRs.  Following section 4.5, writing tselect
selects a trigger slot; a write of an index with no slot leaves the
selection unchanged, so that the readback differs from the written index;
mcontrol and tdata2 access the selected slot. -/
structure trigger_hart where
  tselect : Nat
  triggers : List hart_trigger
  deriving DecidableEq, Repr

/-- CSR read on the modelled hart. -/
def hart_csr_read (h : trigger_hart) (csr : Nat) : Nat :=
  if csr = RISCV_TSELECT then h.tselect
  else if csr = RISCV_MCONTROL then
    (h.triggers.getD h.tselect ⟨0, 0⟩).tdata1
  else if csr = RISCV_TDATA2 then
    (h.triggers.getD h.tselect ⟨0, 0⟩).tdata2
  else 0

/-- CSR write on the modelled hart. -/
def hart_csr_write (h : trigger_hart) (csr v : Nat) : trigger_hart :=
  let cur := h.triggers.getD h.tselect ⟨0, 0⟩
  if csr = RISCV_TSELECT then
    if v < h.triggers.length then { h with tselect := v } else h
  else if csr = RISCV_MCONTROL then
    { h with triggers := h.triggers.set h.tselect { cur with tdata1 := v } }
  else if csr = RISCV_TDATA2 then
    { h with triggers := h.triggers.set h.tselect { cur with tdata2 := v } }
  else h

/-- Allocation walk of riscv_breakwatch_set: for i = 0, 1, ... write
tselect, compare the readback, inspect the type field of tdata1; the
result is the chosen index, or none for the -1 failure return, together
with the hart as the walk leaves it.  The unbounded C loop carries
explicit fuel. -/
def bw_walk : trigger_hart → Nat → Nat → Option (Option Nat × trigger_hart)
  | _, _, 0 => none
  | h, i, fuel + 1 =>
    let h1 := hart_csr_write h RISCV_TSELECT i
    if hart_csr_read h1 RISCV_TSELECT ≠ i then some (none, h1)
    else
      let tdata1 := hart_csr_read h1 RISCV_MCONTROL
      if (tdata1 >>> (32 - 4)) &&& 0xf = 0 then some (none, h1)
      else if (tdata1 >>> (32 - 4)) &&& 0xf = 2 ∧
          tdata1 &&& RISCV_MCONTROL_ENABLE_MASK = 0 then
        some (some i, h1)
      else bw_walk h1 (i + 1) fuel

/-- riscv_breakwatch_set over the modelled hart: the result holds the C
return code (1 for an unsupported kind, -1 for a failed walk, 0 on
success), the allocated index stored into reserved[0] of the breakwatch
record, and the final hart. -/
def riscv_breakwatch_set (h : trigger_hart) (ty : target_breakwatch)
    (addr : Nat) (fuel : Nat) : Option (Int × Option Nat × trigger_hart) :=
  match riscv_breakwatch_mcontrol ty with
  | none => some (1, none, h)
  | some mcontrol =>
    let tselect_saved := hart_csr_read h RISCV_TSELECT
    match bw_walk h 0 fuel with
    | none => none
    | some (none, h1) => some (-1, none, h1)
    | some (some i, h1) =>
      let h2 := hart_csr_write h1 RISCV_MCONTROL mcontrol
      let h3 := hart_csr_write h2 RISCV_TDATA2 addr
      let h4 := hart_csr_write h3 RISCV_TSELECT tselect_saved
      some (0, some i, h4)

/-- riscv_breakwatch_clear over the modelled hart: save tselect, select
the recorded index, zero mcontrol, restore tselect, return 0. -/
def riscv_breakwatch_clear (h : trigger_hart) (idx : Nat) :
    Int × trigger_hart :=
  let tselect_saved := hart_csr_read h RISCV_TSELECT
  let h1 := hart_csr_write h RISCV_TSELECT idx
  let h2 := hart_csr_write h1 RISCV_MCONTROL 0
  let h3 := hart_csr_write h2 RISCV_TSELECT tselect_saved
  (0, h3)

/-- Predicate of a free trigger slot as probed by the walk: the slot
exists, its type field is 2 and its enable bits are all clear. -/
def trigger_free (h : trigger_hart) (i : Nat) : Prop :=
  i < h.triggers.length ∧
  ((h.triggers.getD i ⟨0, 0⟩).tdata1 >>> (32 - 4)) &&& 0xf = 2 ∧
  (h.triggers.getD i ⟨0, 0⟩).tdata1 &&& RISCV_MCONTROL_ENABLE_MASK = 0

instance (h : trigger_hart) (i : Nat) : Decidable (trigger_free h i) := by
  unfold trigger_free
  infer_instance

/-- JTAG events of one committed dbus write of data to word addr. -/
def write_events (abits idle addr data : Nat) : List JtagEvent :=
  [JtagEvent.shiftDR (36 + abits)
     ((addr <<< 36) ||| ((data &&& 0x3ffffffff) <<< 2) ||| RISCV_DBUS_WRITE),
   JtagEvent.tmsSeq idle]

/-- JTAG events of one committed dbus read of word addr: the arming READ
shift, then the NOP shift returning the data. -/
def read_events (abits idle addr : Nat) : List JtagEvent :=
  [JtagEvent.shiftDR (36 + abits) ((addr <<< 36) ||| RISCV_DBUS_READ),
   JtagEvent.tmsSeq idle,
   JtagEvent.shiftDR (36 + abits) RISCV_DBUS_NOP,
   JtagEvent.tmsSeq idle]

/-- Claim-side trace of the executor on a script where every shift gets
status 0: one write per staged word, the last one carrying the INTERRUPT
bit, then one read of word n per poll response. -/
def exec_spec_trace (abits idle : Nat) (code : List Nat) (polls : List Nat) :
    List JtagEvent :=
  (List.range (code.length - 1)).flatMap
    (fun i => write_events abits idle i (code.getD i 0)) ++
  write_events abits idle (code.length - 1)
    (code.getD (code.length - 1) 0 ||| RISCV_DMCONTROL_INTERRUPT) ++
  polls.flatMap (fun _ => read_events abits idle code.length)

/-- Response script in which every shift reports status 0 and the
successive poll reads return the given data values. -/
def exec_script (n : Nat) (polls : List Nat) : List Nat :=
  List.replicate n 0 ++ polls.flatMap (fun p => [0, p <<< 2])

/-- Concrete DTM state used by the evaluation theorems: 6 address bits, no
idle cycles, dramsize 16, no sticky error. -/
def dtm6 : riscv_dtm :=
  { abits := 6, idle := 0, dramsize := 16, error := false,
    lastdbus := 0, halt_requested := false }

/-- Concrete hart with two trigger slots, the first of type 2 but with an
enable bit set, the second reading as type 0. -/
def hart_cex : trigger_hart :=
  { tselect := 0,
    triggers := [{ tdata1 := (2 <<< 28) ||| (1 <<< 3), tdata2 := 0 },
                 { tdata1 := 0, tdata2 := 0 }] }

/-- Concrete hart with a single free trigger slot of type 2. -/
def hart_free : trigger_hart :=
  { tselect := 0, triggers := [{ tdata1 := 2 <<< 28, tdata2 := 0 }] }

/-- Oracle answering 0 to every hart access, used by witnesses. -/
def oracle0 : hart_op → Nat := fun _ => 0

/-! Helper lemmas about single dbus steps and the modelled hart. -/

/-- A status-0 response commits lastdbus and yields the masked data field. -/
theorem low_access_status0 (dtm : riscv_dtm) (dbus r : Nat) (rest : List Nat)
    (herr : dtm.error = false) (hr : r % 4 = 0) :
    riscv_dtm_low_access dtm dbus (r :: rest) =
      some ((r >>> 2) &&& 0x3ffffffff, { dtm with lastdbus := dbus },
        [JtagEvent.shiftDR (36 + dtm.abits) dbus, JtagEvent.tmsSeq dtm.idle],
        rest) := by
  have h3 : ¬ r % 4 = 3 := by omega
  unfold riscv_dtm_low_access low_access_go
  rw [if_neg (by simp [herr]), if_neg h3, if_pos hr]

/-- A status-1 or status-2 response latches the sticky error flag. -/
theorem low_access_sticky (dtm : riscv_dtm) (dbus r : Nat) (rest : List Nat)
    (herr : dtm.error = false) (hr : r % 4 = 1 ∨ r % 4 = 2) :
    riscv_dtm_low_access dtm dbus (r :: rest) =
      some (0, { dtm with error := true },
        [JtagEvent.shiftDR (36 + dtm.abits) dbus], rest) := by
  have h3 : ¬ r % 4 = 3 := by omega
  have h0 : ¬ r % 4 = 0 := by omega
  unfold riscv_dtm_low_access low_access_go
  rw [if_neg (by simp [herr]), if_neg h3, if_neg h0]

/-- Reading tselect on the modelled hart returns the selection. -/
theorem hart_read_tselect (h : trigger_hart) :
    hart_csr_read h RISCV_TSELECT = h.tselect := rfl

/-- Reading mcontrol on the modelled hart returns tdata1 of the selected
slot. -/
theorem hart_read_mcontrol (h : trigger_hart) :
    hart_csr_read h RISCV_MCONTROL =
      (h.triggers.getD h.tselect ⟨0, 0⟩).tdata1 := rfl

/-- Writing tselect selects in-range indices and ignores the others. -/
theorem hart_write_tselect (h : trigger_hart) (v : Nat) :
    hart_csr_write h RISCV_TSELECT v =
      if v < h.triggers.length then { h with tselect := v } else h := rfl

/-- Writing mcontrol updates tdata1 of the selected slot. -/
theorem hart_write_mcontrol (h : trigger_hart) (v : Nat) :
    hart_csr_write h RISCV_MCONTROL v =
      ⟨h.tselect,
       h.triggers.set h.tselect ⟨v, (h.triggers.getD h.tselect ⟨0, 0⟩).tdata2⟩⟩ := rfl

/-- Writing tdata2 updates tdata2 of the selected slot. -/
theorem hart_write_tdata2 (h : trigger_hart) (v : Nat) :
    hart_csr_write h RISCV_TDATA2 v =
      ⟨h.tselect,
       h.triggers.set h.tselect ⟨(h.triggers.getD h.tselect ⟨0, 0⟩).tdata1, v⟩⟩ := rfl

/-- getD of a list at the position just set. -/
theorem getD_set_self (l : List hart_trigger) (i : Nat) (a d : hart_trigger)
    (h : i < l.length) : (l.set i a).getD i d = a := by
  simp [List.getD_eq_getElem?_getD, List.getElem?_set_self', h,
    List.getElem?_eq_getElem]

/-- C5: riscv_halt_poll first consults dmcontrol and returns RUNNING when
no halt was requested and HALTNOT (bit 32) is clear; otherwise it decodes
cause = (dcsr >> 6) & 7 as RUNNING for 0, BREAKPOINT for 1 or 2, REQUEST
for 3, STEPPING for 4, REQUEST for 5 and ERROR for every other value,
exactly as the claim-side restatement halt_poll_spec demands. -/
theorem c5_halt_poll_decode :
    ∀ (hr : Bool) (dmc dcsr : Nat),
      riscv_halt_poll hr dmc dcsr = halt_poll_spec hr dmc dcsr := by
  intro hr dmc dcsr
  unfold riscv_halt_poll halt_poll_spec RISCV_DMCONTROL_HALTNOT
  by_cases h : hr = false ∧ dmc &&& (1 <<< 32) = 0
  · rw [if_pos h, if_pos h]
  · rw [if_neg h, if_neg h]
    have hle : (dcsr >>> 6) &&& 7 ≤ 7 := Nat.and_le_right
    set c := (dcsr >>> 6) &&& 7 with hc
    interval_cases c <;> rfl

/-- C9: the register facade maps indices GDB-style for rv32: reg_read and
regs_write agree with the claim-side restatements reg_read_spec and
regs_write_spec, covering the hard zero at 0, the GPR stub for 1..7 and
10..31, DSCRATCH at 8, Debug RAM word dramsize at 9, DPC at 32, and the
CSR block at 65..65+4095. -/
theorem c9_reg_mapping :
    (∀ (dtm : riscv_dtm) (reg buf : Nat) (oracle : hart_op → Nat),
       riscv_reg_read dtm reg buf oracle = reg_read_spec dtm reg buf oracle) ∧
    (∀ (dtm : riscv_dtm) (regs : List Nat),
       riscv_regs_write dtm regs = regs_write_spec dtm regs) := by
  constructor
  · intro dtm reg buf oracle
    unfold riscv_reg_read reg_read_spec RISCV_DSCRATCH RISCV_DPC
    split_ifs <;> first | rfl | omega
  · intro dtm regs
    rfl

/-- C10: for a register index outside the mapped set, riscv_reg_read
performs no hart access, leaves the caller buffer unmodified, and still
returns 4. -/
theorem c10_unmapped_reg_read (dtm : riscv_dtm) (reg buf : Nat)
    (oracle : hart_op → Nat)
    (h0 : reg ≠ 0) (h8 : reg ≠ 8) (h9 : reg ≠ 9) (h32 : reg ≠ 32)
    (hcsr : ¬ (65 ≤ reg ∧ reg ≤ 65 + 4095))
    (hgpr : ¬ ((1 ≤ reg ∧ reg ≤ 7) ∨ (10 ≤ reg ∧ reg ≤ 31))) :
    riscv_reg_read dtm reg buf oracle = (4, buf, []) := by
  simp only [riscv_reg_read, if_neg h0, if_neg h8, if_neg h9, if_neg h32,
    if_neg hcsr, if_neg hgpr]

/-- C10 witness: register index 33 is unmapped; reading it returns 4 and
hands back the previous buffer content with no hart access. -/
theorem c10_witness :
    (33 : Nat) ≠ 0 ∧ (33 : Nat) ≠ 8 ∧ (33 : Nat) ≠ 9 ∧ (33 : Nat) ≠ 32 ∧
    ¬ (65 ≤ (33 : Nat) ∧ (33 : Nat) ≤ 65 + 4095) ∧
    ¬ ((1 ≤ (33 : Nat) ∧ (33 : Nat) ≤ 7) ∨
       (10 ≤ (33 : Nat) ∧ (33 : Nat) ≤ 31)) ∧
    riscv_reg_read dtm6 33 0xCAFE oracle0 = (4, 0xCAFE, []) :=
  ⟨by decide, by decide, by decide, by decide, by decide, by decide,
   c10_unmapped_reg_read dtm6 33 0xCAFE oracle0 (by decide) (by decide)
     (by decide) (by decide) (by decide) (by decide)⟩

/-- C1: evaluation of riscv_mem_write32 at addr = 0x20000000 and
val = 0xDEADBEEF under an all-status-0 script with one completed poll.
Because the source passes count 5 for the six-element array, the call
stages only the five words 41002403 41402483 00942023 3f80006f addr,
OR-ing INTERRUPT into the addr word at Debug RAM word 4; the dbus write
that would carry val to Debug RAM word 5 never appears in the trace, so
val never reaches Debug RAM. -/
theorem c1_mem_write32_drops_val :
    riscv_mem_write32 dtm6 0x20000000 0xDEADBEEF (exec_script 5 [0]) 1 =
      some (0, dtm6,
        exec_spec_trace 6 0
          [0x41002403, 0x41402483, 0x942023, 0x3f80006f, 0x20000000] [0],
        []) ∧
    JtagEvent.shiftDR 42
        ((4 <<< 36) ||| ((0x20000000 ||| (1 <<< 33)) <<< 2) ||| 2) ∈
      exec_spec_trace 6 0
        [0x41002403, 0x41402483, 0x942023, 0x3f80006f, 0x20000000] [0] ∧
    JtagEvent.shiftDR 42 ((5 <<< 36) ||| (0xDEADBEEF <<< 2) ||| 2) ∉
      exec_spec_trace 6 0
        [0x41002403, 0x41402483, 0x942023, 0x3f80006f, 0x20000000] [0] ∧
    ((exec_spec_trace 6 0
        [0x41002403, 0x41402483, 0x942023, 0x3f80006f, 0x20000000] [0]).all
      (fun ev =>
        match ev with
        | JtagEvent.shiftDR _ p => ((p >>> 2) &&& 0x3ffffffff) != 0xDEADBEEF
        | _ => true) = true) := by
  refine ⟨by decide, by decide, by decide, by decide⟩

/-- C2: while the sticky error flag is set, every dbus operation
(riscv_dtm_low_access, riscv_dtm_write, riscv_dtm_read) returns 0,
performs no JTAG interaction and leaves the state unchanged, so no dbus
operation ever clears the flag; a riscv_check_error call issues the DBUS
reset events, clears the flag and returns true; an immediately following
riscv_check_error on the cleared state returns false with no events. -/
theorem c2_sticky_error (dtm : riscv_dtm) (herr : dtm.error = true)
    (dbus addr data r : Nat) (resps rest : List Nat) :
    riscv_dtm_low_access dtm dbus resps = some (0, dtm, [], resps) ∧
    riscv_dtm_write dtm addr data resps = some (0, dtm, [], resps) ∧
    riscv_dtm_read dtm addr resps = some (0, dtm, [], resps) ∧
    riscv_check_error dtm (r :: rest) =
      some (true, { dtm with error := false },
        [JtagEvent.writeIR RISCV_IR_DTMCONTROL,
         JtagEvent.shiftDR 32 RISCV_DTMCONTROL_DBUSRESET], rest) ∧
    riscv_check_error { dtm with error := false } rest =
      some (false, { dtm with error := false }, [], rest) := by
  refine ⟨?_, ?_, ?_, ?_, ?_⟩
  · simp [riscv_dtm_low_access, herr]
  · simp [riscv_dtm_write, riscv_dtm_low_access, herr]
  · simp [riscv_dtm_read, riscv_dtm_low_access, herr]
  · simp [riscv_check_error, herr]
  · simp [riscv_check_error]

/-- C2 witness: the sticky behaviour evaluated on a concrete errored DTM
state, a one-word script and an empty remainder. -/
theorem c2_sticky_error_witness :
    ({ dtm6 with error := true } : riscv_dtm).error = true ∧
    riscv_dtm_low_access { dtm6 with error := true } 7 [9] =
      some (0, { dtm6 with error := true }, [], [9]) :=
  ⟨rfl, (c2_sticky_error { dtm6 with error := true } rfl 7 0 0 5 [9] []).1⟩

/-- C4: on a status-3 response the link emits exactly the recovery
sequence — the failed shift of the current payload, IR=DTMCONTROL, a
32-bit DR shift with DBUSRESET set, IR=DBUS, a reshift of lastdbus, the
idle cycles — and then loops to re-issue the same current payload; and
lastdbus is updated only by a committing status-0 shift, to the payload of
that successful transaction, so the reshifted word is always the payload
of the previous successful transaction. -/
theorem c4_status3_recovery :
    (∀ (dtm : riscv_dtm) (dbus r0 r1 r2 : Nat) (rest : List Nat)
       (v : Nat) (dtm2 : riscv_dtm) (evs : List JtagEvent) (rem : List Nat),
       dtm.error = false → r0 % 4 = 3 →
       low_access_go dtm dbus rest = some (v, dtm2, evs, rem) →
       riscv_dtm_low_access dtm dbus (r0 :: r1 :: r2 :: rest) =
         some (v, dtm2,
           JtagEvent.shiftDR (36 + dtm.abits) dbus ::
           JtagEvent.writeIR RISCV_IR_DTMCONTROL ::
           JtagEvent.shiftDR 32 RISCV_DTMCONTROL_DBUSRESET ::
           JtagEvent.writeIR RISCV_IR_DBUS ::
           JtagEvent.shiftDR (dtm.abits + 36) dtm.lastdbus ::
           JtagEvent.tmsSeq dtm.idle :: evs, rem)) ∧
    (∀ (dtm : riscv_dtm) (dbus r : Nat) (rest : List Nat),
       dtm.error = false → r % 4 = 0 →
       low_access_go dtm dbus (r :: rest) =
         some ((r >>> 2) &&& 0x3ffffffff, { dtm with lastdbus := dbus },
           [JtagEvent.shiftDR (36 + dtm.abits) dbus,
            JtagEvent.tmsSeq dtm.idle], rest)) ∧
    (∀ (dtm : riscv_dtm) (dbus r : Nat) (rest : List Nat),
       dtm.error = false → r % 4 = 1 ∨ r % 4 = 2 →
       low_access_go dtm dbus (r :: rest) =
         some (0, { dtm with error := true },
           [JtagEvent.shiftDR (36 + dtm.abits) dbus], rest)) := by
  refine ⟨?_, ?_, ?_⟩
  · intro dtm dbus r0 r1 r2 rest v dtm2 evs rem herr h3 hgo
    unfold riscv_dtm_low_access low_access_go
    rw [if_neg (by simp [herr]), if_pos h3]
    simp only [hgo]
  · intro dtm dbus r rest herr hr
    have h3 : ¬ r % 4 = 3 := by omega
    unfold low_access_go
    rw [if_neg h3, if_pos hr]
  · intro dtm dbus r rest herr hr
    have h3 : ¬ r % 4 = 3 := by omega
    have h0 : ¬ r % 4 = 0 := by omega
    unfold low_access_go
    rw [if_neg h3, if_neg h0]

/-- C4 witness: a concrete status-3 recovery around a committing shift,
with the recovery reshifting the lastdbus value 77 of the previous
successful transaction. -/
theorem c4_status3_recovery_witness :
    ({ dtm6 with lastdbus := 77 } : riscv_dtm).error = false ∧ (3 : Nat) % 4 = 3 ∧
    riscv_dtm_low_access { dtm6 with lastdbus := 77 } 12 [3, 0, 0, 4] =
      some (1, { dtm6 with lastdbus := 12 },
        [JtagEvent.shiftDR 42 12,
         JtagEvent.writeIR RISCV_IR_DTMCONTROL,
         JtagEvent.shiftDR 32 RISCV_DTMCONTROL_DBUSRESET,
         JtagEvent.writeIR RISCV_IR_DBUS,
         JtagEvent.shiftDR 42 77,
         JtagEvent.tmsSeq 0,
         JtagEvent.shiftDR 42 12, JtagEvent.tmsSeq 0], []) :=
  ⟨rfl, rfl,
   c4_status3_recovery.1 { dtm6 with lastdbus := 77 } 12 3 0 0 [4] 1
     { dtm6 with lastdbus := 12 }
     [JtagEvent.shiftDR 42 12, JtagEvent.tmsSeq 0] [] rfl rfl (by decide)⟩

/-- Masking with the 34-bit dbus data mask is the identity below 2^34. -/
theorem mask34_of_lt (d : Nat) (hd : d < 2 ^ 34) : d &&& 0x3ffffffff = d := by
  have h : (0x3ffffffff : Nat) = 2 ^ 34 - 1 := by norm_num
  rw [h, Nat.and_pow_two_sub_one_eq_mod, Nat.mod_eq_of_lt hd]

/-- C8: for addr below 2^abits and data34 below 2^34 the write shifts
exactly the payload (addr<<36) | (data34<<2) | WRITE; a response r with
status r & 3 = 0 decodes to data = (r>>2) & (2^34-1); and the read
performs exactly two shifts in order, the arming (addr<<36) | READ and a
NOP whose decoded data field is returned. -/
theorem c8_dbus_encoding (dtm : riscv_dtm) (herr : dtm.error = false)
    (addr data r r1 r2 : Nat) (ha : addr < 2 ^ dtm.abits) (hd : data < 2 ^ 34)
    (hr : r % 4 = 0) (hr1 : r1 % 4 = 0) (hr2 : r2 % 4 = 0)
    (rest rest2 : List Nat) :
    riscv_dtm_write dtm addr data (r :: rest) =
      some ((r >>> 2) &&& 0x3ffffffff,
        { dtm with
            lastdbus := (addr <<< 36) ||| (data <<< 2) ||| RISCV_DBUS_WRITE },
        [JtagEvent.shiftDR (36 + dtm.abits)
           ((addr <<< 36) ||| (data <<< 2) ||| RISCV_DBUS_WRITE),
         JtagEvent.tmsSeq dtm.idle], rest) ∧
    riscv_dtm_read dtm addr (r1 :: r2 :: rest2) =
      some ((r2 >>> 2) &&& 0x3ffffffff,
        { dtm with lastdbus := RISCV_DBUS_NOP },
        [JtagEvent.shiftDR (36 + dtm.abits)
           ((addr <<< 36) ||| RISCV_DBUS_READ),
         JtagEvent.tmsSeq dtm.idle,
         JtagEvent.shiftDR (36 + dtm.abits) RISCV_DBUS_NOP,
         JtagEvent.tmsSeq dtm.idle], rest2) := by
  constructor
  · unfold riscv_dtm_write
    rw [mask34_of_lt data hd, low_access_status0 dtm _ r rest herr hr]
  · have e1 := low_access_status0 dtm ((addr <<< 36) ||| RISCV_DBUS_READ) r1
      (r2 :: rest2) herr hr1
    have e2 := low_access_status0
      { dtm with lastdbus := (addr <<< 36) ||| RISCV_DBUS_READ }
      RISCV_DBUS_NOP r2 rest2 herr hr2
    unfold riscv_dtm_read
    simp only [e1, e2]
    rfl

/-- C8 witness: concrete write and read on the six-address-bit DTM state,
with status-0 responses throughout. -/
theorem c8_dbus_encoding_witness :
    dtm6.error = false ∧ (2 : Nat) < 2 ^ dtm6.abits ∧ (5 : Nat) < 2 ^ 34 ∧
    (4 : Nat) % 4 = 0 ∧
    riscv_dtm_write dtm6 2 5 [4] =
      some (1,
        { dtm6 with lastdbus := (2 <<< 36) ||| (5 <<< 2) ||| RISCV_DBUS_WRITE },
        [JtagEvent.shiftDR 42 ((2 <<< 36) ||| (5 <<< 2) ||| RISCV_DBUS_WRITE),
         JtagEvent.tmsSeq 0], []) :=
  ⟨rfl, by decide, by decide, rfl,
   (c8_dbus_encoding dtm6 rfl 2 5 4 0 0 (by decide) (by decide) (by decide)
     (by decide) (by decide) [] []).1⟩

/-- A committed two-shift read with a status-0 arming response and a
status-0 data response p <<< 2 returns p and emits read_events. -/
theorem dtm_read_status0 (dtm : riscv_dtm) (herr : dtm.error = false)
    (addr p : Nat) (hp : p < 2 ^ 34) (rest : List Nat) :
    riscv_dtm_read dtm addr (0 :: (p <<< 2) :: rest) =
      some (p, { dtm with lastdbus := RISCV_DBUS_NOP },
        read_events dtm.abits dtm.idle addr, rest) := by
  have e1 := low_access_status0 dtm ((addr <<< 36) ||| RISCV_DBUS_READ) 0
    ((p <<< 2) :: rest) herr rfl
  have hmod : (p <<< 2) % 4 = 0 := by
    rw [Nat.shiftLeft_eq]
    omega
  have e2 := low_access_status0
    { dtm with lastdbus := (addr <<< 36) ||| RISCV_DBUS_READ }
    RISCV_DBUS_NOP (p <<< 2) rest herr hmod
  have hv : ((p <<< 2) >>> 2) &&& 0x3ffffffff = p := by
    have hsr : (p <<< 2) >>> 2 = p := by
      rw [Nat.shiftLeft_eq, Nat.shiftRight_eq_div_pow]
      exact Nat.mul_div_cancel p (by norm_num)
    rw [hsr, mask34_of_lt p hp]
  unfold riscv_dtm_read
  simp only [e1, e2, hv]
  rfl

/-- Splitting one zero off the back of a replicated script. -/
theorem replicate_succ_append (m : Nat) (x : List Nat) :
    List.replicate (m + 1) (0 : Nat) ++ x =
      List.replicate m (0 : Nat) ++ (0 :: x) := by
  induction m with
  | zero => rfl
  | succ m ih => simpa [List.replicate_succ] using ih

/-- Staging loop under an all-status-0 script: consumes n zeroes, emits
one committed write of code words i .. i+n-1 each, and preserves the
error flag, abits and idle fields. -/
theorem exec_write_loop_ok :
    ∀ (n : Nat) (dtm : riscv_dtm) (i : Nat) (code : List Nat)
      (tail : List Nat), dtm.error = false →
      ∃ dtm2 : riscv_dtm,
        exec_write_loop code dtm i n (List.replicate n 0 ++ tail) =
          some (dtm2,
            (List.range' i n).flatMap
              (fun k => write_events dtm.abits dtm.idle k (code.getD k 0)),
            tail) ∧
        dtm2.error = false ∧ dtm2.abits = dtm.abits ∧ dtm2.idle = dtm.idle := by
  intro n
  induction n with
  | zero =>
    intro dtm i code tail herr
    exact ⟨dtm, rfl, herr, rfl, rfl⟩
  | succ n ih =>
    intro dtm i code tail herr
    have hw := low_access_status0 dtm
      ((i <<< 36) ||| (((code.getD i 0) &&& 0x3ffffffff) <<< 2) |||
        RISCV_DBUS_WRITE) 0 (List.replicate n 0 ++ tail) herr rfl
    obtain ⟨dtm2, he, herr2, hab, hid⟩ :=
      ih { dtm with
             lastdbus := (i <<< 36) |||
               (((code.getD i 0) &&& 0x3ffffffff) <<< 2) |||
               RISCV_DBUS_WRITE } (i + 1) code tail herr
    refine ⟨dtm2, ?_, herr2, hab, hid⟩
    show exec_write_loop code dtm i (n + 1)
        (0 :: (List.replicate n 0 ++ tail)) = _
    rw [exec_write_loop]
    simp only [riscv_dtm_write, hw, he]
    rw [List.range'_succ, List.flatMap_cons]
    rfl

/-- Completion poll under an all-status-0 script: the reads return the
listed poll values, the INTERRUPT bit keeps the loop going through ps and
the final clear value pl stops it, returning its low 32 bits. -/
theorem exec_poll_ok :
    ∀ (ps : List Nat) (pl : Nat) (dtm : riscv_dtm) (count fuel : Nat)
      (tail : List Nat), dtm.error = false →
      (∀ p ∈ ps, p &&& RISCV_DMCONTROL_INTERRUPT ≠ 0) →
      (∀ p ∈ ps, p < 2 ^ 34) →
      pl &&& RISCV_DMCONTROL_INTERRUPT = 0 → pl < 2 ^ 34 →
      ps.length + 1 ≤ fuel →
      ∃ dtm2 : riscv_dtm,
        exec_poll count dtm fuel
            ((ps ++ [pl]).flatMap (fun p => [0, p <<< 2]) ++ tail) =
          some (pl % 2 ^ 32, dtm2,
            (ps ++ [pl]).flatMap
              (fun _ => read_events dtm.abits dtm.idle count),
            tail) ∧ dtm2.error = false := by
  intro ps
  induction ps with
  | nil =>
    intro pl dtm count fuel tail herr _ _ hpl hpl34 hfuel
    match fuel, hfuel with
    | fuel + 1, _ =>
      have hrd := dtm_read_status0 dtm herr count pl hpl34 tail
      refine ⟨{ dtm with lastdbus := RISCV_DBUS_NOP }, ?_, herr⟩
      show exec_poll count dtm (fuel + 1) (0 :: (pl <<< 2) :: tail) = _
      rw [exec_poll]
      simp only [hrd]
      rw [if_pos hpl]
      rfl
  | cons p ps ih =>
    intro pl dtm count fuel tail herr hps hlt hpl hpl34 hfuel
    have hlen : ps.length + 1 ≤ fuel - 1 := by
      simp only [List.length_cons] at hfuel
      omega
    match fuel, hfuel with
    | fuel + 1, _ =>
      have hrd := dtm_read_status0 dtm herr count p
        (hlt p (List.mem_cons_self p ps))
        ((ps ++ [pl]).flatMap (fun q => [0, q <<< 2]) ++ tail)
      obtain ⟨dtm2, he, herr2⟩ :=
        ih pl { dtm with lastdbus := RISCV_DBUS_NOP } count fuel tail herr
          (fun q hq => hps q (List.mem_cons_of_mem p hq))
          (fun q hq => hlt q (List.mem_cons_of_mem p hq)) hpl hpl34
          (by omega)
      refine ⟨dtm2, ?_, herr2⟩
      show exec_poll count dtm (fuel + 1)
          (0 :: (p <<< 2) ::
            ((ps ++ [pl]).flatMap (fun q => [0, q <<< 2]) ++ tail)) = _
      rw [exec_poll]
      simp only [hrd]
      rw [if_neg (hps p (List.mem_cons_self p ps))]
      simp only [he]
      rw [List.cons_append, List.flatMap_cons]

/-- C3: for code of length n at least 1 and count n as passed by the
stubs, the executor writes code[i] to Debug RAM word i for i in 0..n-2,
writes code[n-1] with the INTERRUPT bit (1 << 33) OR-ed in to word n-1,
polls Debug RAM word n at least once until the INTERRUPT bit of the
returned data34 is clear, and returns the low 32 bits of the last poll:
on an all-status-0 script whose poll answers are ps ++ [pl], with the
INTERRUPT bit set throughout ps and clear in pl, the trace is exactly
exec_spec_trace and the result is pl mod 2^32. -/
theorem c3_exec_correct (dtm : riscv_dtm) (herr : dtm.error = false)
    (code : List Nat) (hn : 1 ≤ code.length)
    (ps : List Nat) (pl : Nat)
    (hps : ∀ p ∈ ps, p &&& RISCV_DMCONTROL_INTERRUPT ≠ 0)
    (hlt : ∀ p ∈ ps, p < 2 ^ 34)
    (hpl : pl &&& RISCV_DMCONTROL_INTERRUPT = 0) (hpl34 : pl < 2 ^ 34)
    (fuel : Nat) (hfuel : ps.length + 1 ≤ fuel) :
    ∃ dtm2 : riscv_dtm,
      riscv_debug_ram_exec dtm code code.length
          (exec_script code.length (ps ++ [pl])) fuel =
        some (pl % 2 ^ 32, dtm2,
          exec_spec_trace dtm.abits dtm.idle code (ps ++ [pl]), []) := by
  obtain ⟨m, hm⟩ : ∃ m, code.length = m + 1 := ⟨code.length - 1, by omega⟩
  unfold riscv_debug_ram_exec exec_script exec_spec_trace
  rw [hm]
  simp only [Nat.add_sub_cancel]
  rw [replicate_succ_append m ((ps ++ [pl]).flatMap fun p => [0, p <<< 2])]
  obtain ⟨dtmA, heA, herrA, habA, hidA⟩ :=
    exec_write_loop_ok m dtm 0 code
      (0 :: ((ps ++ [pl]).flatMap fun p => [0, p <<< 2])) herr
  simp only [heA]
  have hwf := low_access_status0 dtmA
    ((m <<< 36) |||
      ((((code.getD m 0) ||| RISCV_DMCONTROL_INTERRUPT) &&& 0x3ffffffff)
        <<< 2) ||| RISCV_DBUS_WRITE) 0
    ((ps ++ [pl]).flatMap fun p => [0, p <<< 2]) herrA rfl
  simp only [riscv_dtm_write, hwf]
  obtain ⟨dtmB, heB, herrB⟩ :=
    exec_poll_ok ps pl
      { dtmA with
          lastdbus := (m <<< 36) |||
            ((((code.getD m 0) ||| RISCV_DMCONTROL_INTERRUPT) &&&
              0x3ffffffff) <<< 2) ||| RISCV_DBUS_WRITE }
      (m + 1) fuel [] herrA hps hlt hpl hpl34 hfuel
  rw [List.append_nil] at heB
  simp only [heB]
  refine ⟨dtmB, ?_⟩
  simp only [write_events, habA, hidA, List.range_eq_range']

/-- C3 witness: a one-instruction program, one busy poll and one clear
poll, evaluated on the six-address-bit DTM state. -/
theorem c3_exec_correct_witness :
    dtm6.error = false ∧ 1 ≤ ([17] : List Nat).length ∧
    (∀ p ∈ ([2 ^ 33] : List Nat), p &&& RISCV_DMCONTROL_INTERRUPT ≠ 0) ∧
    (∀ p ∈ ([2 ^ 33] : List Nat), p < 2 ^ 34) ∧
    (5 : Nat) &&& RISCV_DMCONTROL_INTERRUPT = 0 ∧ (5 : Nat) < 2 ^ 34 ∧
    ([2 ^ 33] : List Nat).length + 1 ≤ 2 ∧
    ∃ dtm2 : riscv_dtm,
      riscv_debug_ram_exec dtm6 [17] ([17] : List Nat).length
          (exec_script ([17] : List Nat).length ([2 ^ 33] ++ [5])) 2 =
        some (5 % 2 ^ 32, dtm2,
          exec_spec_trace dtm6.abits dtm6.idle [17] ([2 ^ 33] ++ [5]), []) :=
  ⟨rfl, by decide, by decide, by decide, by decide, by decide, by decide,
   c3_exec_correct dtm6 rfl [17] (by decide) [2 ^ 33] 5 (by decide)
     (by decide) (by decide) (by decide) 2 (by decide)⟩

/-- Unfolding of one allocation walk step. -/
theorem bw_walk_succ (h : trigger_hart) (i fuel : Nat) :
    bw_walk h i (fuel + 1) =
      (if hart_csr_read (hart_csr_write h RISCV_TSELECT i) RISCV_TSELECT ≠ i
       then some (none, hart_csr_write h RISCV_TSELECT i)
       else if (hart_csr_read (hart_csr_write h RISCV_TSELECT i)
             RISCV_MCONTROL >>> (32 - 4)) &&& 0xf = 0 then
         some (none, hart_csr_write h RISCV_TSELECT i)
       else if (hart_csr_read (hart_csr_write h RISCV_TSELECT i)
             RISCV_MCONTROL >>> (32 - 4)) &&& 0xf = 2 ∧
           hart_csr_read (hart_csr_write h RISCV_TSELECT i) RISCV_MCONTROL
             &&& RISCV_MCONTROL_ENABLE_MASK = 0 then
         some (some i, hart_csr_write h RISCV_TSELECT i)
       else bw_walk (hart_csr_write h RISCV_TSELECT i) (i + 1) fuel) := rfl

/-- A successful allocation walk from index i finds the least free slot at
or after i, leaves its index selected, and never touches the triggers. -/
theorem bw_walk_success :
    ∀ (fuel : Nat) (h : trigger_hart) (i k : Nat) (h2 : trigger_hart),
      h.tselect < h.triggers.length →
      bw_walk h i fuel = some (some k, h2) →
      i ≤ k ∧ trigger_free h k ∧
      (∀ j, i ≤ j → j < k → ¬ trigger_free h j) ∧
      h2.tselect = k ∧ h2.triggers = h.triggers := by
  intro fuel
  induction fuel with
  | zero =>
    intro h i k h2 _ hw
    simp [bw_walk] at hw
  | succ fuel ih =>
    intro h i k h2 hsel hw
    rw [bw_walk_succ] at hw
    by_cases hi : i < h.triggers.length
    · have hw1 : hart_csr_write h RISCV_TSELECT i = { h with tselect := i } := by
        rw [hart_write_tselect, if_pos hi]
      rw [hw1, hart_read_tselect, hart_read_mcontrol] at hw
      have htd : ({ h with tselect := i } : trigger_hart).tselect = i := rfl
      have htr : ({ h with tselect := i } : trigger_hart).triggers =
        h.triggers := rfl
      rw [htd, htr] at hw
      rw [if_neg (by omega : ¬ i ≠ i)] at hw
      by_cases hty0 :
          ((h.triggers.getD i ⟨0, 0⟩).tdata1 >>> (32 - 4)) &&& 0xf = 0
      · rw [if_pos hty0] at hw
        exact absurd hw (by simp)
      · rw [if_neg hty0] at hw
        by_cases hfree :
            ((h.triggers.getD i ⟨0, 0⟩).tdata1 >>> (32 - 4)) &&& 0xf = 2 ∧
            (h.triggers.getD i ⟨0, 0⟩).tdata1 &&&
              RISCV_MCONTROL_ENABLE_MASK = 0
        · rw [if_pos hfree] at hw
          simp only [Option.some.injEq, Prod.mk.injEq] at hw
          obtain ⟨hik, hh2⟩ := hw
          subst hik
          subst hh2
          exact ⟨Nat.le_refl i, ⟨hi, hfree.1, hfree.2⟩,
            fun j h1 h2 => absurd (lt_of_le_of_lt h1 h2) (lt_irrefl i),
            rfl, rfl⟩
        · rw [if_neg hfree] at hw
          have hres := ih { h with tselect := i } (i + 1) k h2 hi hw
          refine ⟨by omega, hres.2.1, ?_, hres.2.2.2.1, hres.2.2.2.2⟩
          intro j hij hjk
          rcases Nat.eq_or_lt_of_le hij with hji | hji
          · intro hfr
            exact hfree ⟨hji ▸ hfr.2.1, hji ▸ hfr.2.2⟩
          · exact hres.2.2.1 j hji hjk
    · have hw1 : hart_csr_write h RISCV_TSELECT i = h := by
        rw [hart_write_tselect, if_neg hi]
      rw [hw1, hart_read_tselect] at hw
      rw [if_pos (by omega : h.tselect ≠ i)] at hw
      exact absurd hw (by simp)

/-- Successful riscv_breakwatch_set: the allocated index is the least free
slot, the final hart has tselect restored to its pre-call value, and the
chosen slot holds the prepared mcontrol value and the watched address. -/
theorem breakwatch_set_success_state
    (h : trigger_hart) (ty : target_breakwatch) (addr fuel k : Nat)
    (h2 : trigger_hart) (m : Nat)
    (hsel : h.tselect < h.triggers.length)
    (hm : riscv_breakwatch_mcontrol ty = some m)
    (hset : riscv_breakwatch_set h ty addr fuel = some (0, some k, h2)) :
    k < h.triggers.length ∧ trigger_free h k ∧
    (∀ j, j < k → ¬ trigger_free h j) ∧
    h2.tselect = h.tselect ∧
    h2.triggers = h.triggers.set k ⟨m, addr⟩ := by
  unfold riscv_breakwatch_set at hset
  simp only [hm] at hset
  cases hwalk : bw_walk h 0 fuel with
  | none =>
    rw [hwalk] at hset
    simp at hset
  | some pr =>
    obtain ⟨oi, h1⟩ := pr
    cases oi with
    | none =>
      simp only [hwalk, Option.some.injEq, Prod.mk.injEq] at hset
      exact absurd hset.1 (by decide)
    | some i =>
      simp only [hwalk] at hset
      obtain ⟨-, hfree, hleast, hts1, htr1⟩ :=
        bw_walk_success fuel h 0 i h1 hsel hwalk
      have hk : i < h.triggers.length := hfree.1
      have hA : hart_csr_write h1 RISCV_MCONTROL m =
          ⟨i, h.triggers.set i
            ⟨m, (h.triggers.getD i ⟨0, 0⟩).tdata2⟩⟩ := by
        rw [hart_write_mcontrol, hts1, htr1]
      have hg : ((h.triggers.set i
            ⟨m, (h.triggers.getD i ⟨0, 0⟩).tdata2⟩).getD i ⟨0, 0⟩) =
          ⟨m, (h.triggers.getD i ⟨0, 0⟩).tdata2⟩ :=
        getD_set_self _ _ _ _ hk
      have hB : hart_csr_write
          (⟨i, h.triggers.set i
            ⟨m, (h.triggers.getD i ⟨0, 0⟩).tdata2⟩⟩ : trigger_hart)
          RISCV_TDATA2 addr =
          ⟨i, h.triggers.set i ⟨m, addr⟩⟩ := by
        rw [hart_write_tdata2]
        show (⟨i, (h.triggers.set i
          ⟨m, (h.triggers.getD i ⟨0, 0⟩).tdata2⟩).set i
            ⟨((h.triggers.set i
              ⟨m, (h.triggers.getD i ⟨0, 0⟩).tdata2⟩).getD i
                ⟨0, 0⟩).tdata1, addr⟩⟩ : trigger_hart) = _
        rw [hg, List.set_set]
      have hC : hart_csr_write
          (⟨i, h.triggers.set i ⟨m, addr⟩⟩ : trigger_hart)
          RISCV_TSELECT (hart_csr_read h RISCV_TSELECT) =
          ⟨h.tselect, h.triggers.set i ⟨m, addr⟩⟩ := by
        rw [hart_read_tselect, hart_write_tselect,
          if_pos (by simpa [List.length_set] using hsel)]
      rw [hA, hB, hC] at hset
      simp only [Option.some.injEq, Prod.mk.injEq] at hset
      obtain ⟨-, hik, hh2⟩ := hset
      subst hik
      refine ⟨hk, hfree, fun j hj => hleast j (Nat.zero_le j) hj,
        by rw [← hh2], by rw [← hh2]⟩

/-- C6 counterexample: on a hart whose slot 0 is type 2 but enabled and
whose slot 1 reads as type 0, riscv_breakwatch_set fails with -1 and
leaves tselect at the probed index 1, different from its pre-call value
0, so the claim does not hold for calls that return failure. -/
theorem c6_counterexample :
    riscv_breakwatch_set hart_cex target_breakwatch.break_hard 0x100 5 =
      some (-1, none, { tselect := 1, triggers := hart_cex.triggers }) ∧
    (1 : Nat) ≠ hart_cex.tselect := ⟨by decide, by decide⟩

/-- C6 (amended): after every breakwatch_clear call and after every
breakwatch_set call that returns success, tselect equals its pre-call
value, and on success the allocated index is the smallest tselect index
whose tdata1 type field equals 2 and whose ENABLE_MASK bits are all zero;
failing set calls may leave tselect changed. -/
theorem c6_trigger_allocator :
    (∀ (h : trigger_hart) (ty : target_breakwatch) (addr fuel k : Nat)
       (h2 : trigger_hart),
       h.tselect < h.triggers.length →
       riscv_breakwatch_set h ty addr fuel = some (0, some k, h2) →
       h2.tselect = h.tselect ∧ trigger_free h k ∧
       ∀ j, j < k → ¬ trigger_free h j) ∧
    (∀ (h : trigger_hart) (idx : Nat), h.tselect < h.triggers.length →
       (riscv_breakwatch_clear h idx).2.tselect = h.tselect) := by
  constructor
  · intro h ty addr fuel k h2 hsel hset
    cases hm : riscv_breakwatch_mcontrol ty with
    | none =>
      unfold riscv_breakwatch_set at hset
      simp only [hm, Option.some.injEq, Prod.mk.injEq] at hset
      exact absurd hset.1 (by decide)
    | some m =>
      obtain ⟨-, hfree, hleast, hts, -⟩ :=
        breakwatch_set_success_state h ty addr fuel k h2 m hsel hm hset
      exact ⟨hts, hfree, hleast⟩
  · intro h idx hsel
    show (hart_csr_write (hart_csr_write (hart_csr_write h RISCV_TSELECT idx)
        RISCV_MCONTROL 0) RISCV_TSELECT
        (hart_csr_read h RISCV_TSELECT)).tselect = h.tselect
    have h1tr : (hart_csr_write h RISCV_TSELECT idx).triggers = h.triggers := by
      rw [hart_write_tselect]
      split <;> rfl
    have h2tr : (hart_csr_write (hart_csr_write h RISCV_TSELECT idx)
        RISCV_MCONTROL 0).triggers.length = h.triggers.length := by
      rw [hart_write_mcontrol]
      simp [List.length_set, h1tr]
    rw [hart_read_tselect, hart_write_tselect, if_pos (h2tr ▸ hsel)]

/-- C6 witness: a successful execute-trigger installation on a hart with a
single free type-2 slot restores tselect and allocates the least free
index 0. -/
theorem c6_trigger_allocator_witness :
    hart_free.tselect < hart_free.triggers.length ∧
    (({ tselect := 0,
        triggers := [{ tdata1 := 0x0800107C, tdata2 := 0x08000100 }] } :
          trigger_hart).tselect = hart_free.tselect ∧
     trigger_free hart_free 0 ∧ ∀ j, j < 0 → ¬ trigger_free hart_free j) :=
  ⟨by decide,
   c6_trigger_allocator.1 hart_free target_breakwatch.break_hard 0x08000100 2
     0 { tselect := 0,
         triggers := [{ tdata1 := 0x0800107C, tdata2 := 0x08000100 }] }
     (by decide) (by decide)⟩

/-- C7 counterexample: the mcontrol value prepared for a hard breakpoint
is (1<<27) | (1<<12) | (0xf<<3) | (1<<2), and that value is not the
0x08001084 stated by the specification. -/
theorem c7_mcontrol_counterexample :
    riscv_breakwatch_mcontrol target_breakwatch.break_hard =
      some ((1 <<< 27) ||| (1 <<< 12) ||| (0xf <<< 3) ||| (1 <<< 2)) ∧
    riscv_breakwatch_mcontrol target_breakwatch.break_hard ≠
      some 0x08001084 := ⟨by decide, by decide⟩

/-- C7 (amended): for an execute trigger the value written to mcontrol is
(1<<27) | (1<<12) | (0xf<<3) | (1<<2) = 0x0800107C, and tdata2 receives
the breakpoint address. -/
theorem c7_mcontrol_value :
    riscv_breakwatch_mcontrol target_breakwatch.break_hard =
      some 0x0800107C ∧
    (∀ (h : trigger_hart) (addr fuel k : Nat) (h2 : trigger_hart),
       h.tselect < h.triggers.length →
       riscv_breakwatch_set h target_breakwatch.break_hard addr fuel =
         some (0, some k, h2) →
       (h2.triggers.getD k ⟨0, 0⟩).tdata1 = 0x0800107C ∧
       (h2.triggers.getD k ⟨0, 0⟩).tdata2 = addr) := by
  refine ⟨by decide, ?_⟩
  intro h addr fuel k h2 hsel hset
  obtain ⟨hk, -, -, -, htr⟩ :=
    breakwatch_set_success_state h target_breakwatch.break_hard addr fuel k
      h2 0x0800107C hsel (by decide) hset
  rw [htr, getD_set_self _ _ _ _ hk]
  exact ⟨rfl, rfl⟩

/-- C7 witness: installing an execute trigger at 0x200 on the free-slot
hart writes mcontrol 0x0800107C and tdata2 0x200 into slot 0. -/
theorem c7_mcontrol_value_witness :
    hart_free.tselect < hart_free.triggers.length ∧
    ((({ tselect := 0,
         triggers := [{ tdata1 := 0x0800107C, tdata2 := 0x200 }] } :
           trigger_hart).triggers.getD 0 ⟨0, 0⟩).tdata1 = 0x0800107C ∧
     (({ tselect := 0,
         triggers := [{ tdata1 := 0x0800107C, tdata2 := 0x200 }] } :
           trigger_hart).triggers.getD 0 ⟨0, 0⟩).tdata2 = 0x200) :=
  ⟨by decide,
   c7_mcontrol_value.2 hart_free 0x200 2 0
     { tselect := 0, triggers := [{ tdata1 := 0x0800107C, tdata2 := 0x200 }] }
     (by decide) (by decide)⟩
